import Mathlib

/-!
Shallow embedding of the asynchronous-to-synchronous correlation layer of
the esp-restful-matter-controller repository, translated from
src/main/http_server/esp_matter_controller_http_server.cpp.

The embedding keeps the pointer identity of the source by modelling the
global result maps as association lists from node id to a heap address,
together with an explicit heap of live record allocations.  Bounded waits
(mutex takes, the stack lock, the completion semaphore) and fallible
allocations are modelled by environment records that fix the outcome of
each such step for one run; callback invocations delivered by the Matter
task while a handler is blocked are modelled by an explicit event list.
-/

namespace MatterController

/-- ESP-IDF error codes that appear in the embedded functions. -/
inductive EspErr where
| ok
| fail
| invalidArg
| noMem
deriving DecidableEq, Repr

/-- Events on the global Matter stack lock: a successful acquisition
(chip_stack_lock returning SUCCESS) and a release (chip_stack_unlock).
A failed acquisition attempt has no side effect and produces no event. -/
inductive LockEv where
| acq
| rel
deriving DecidableEq, Repr

/-- Runs a lock-event trace against a counter of currently held
acquisitions; none signals a release without a matching acquisition. -/
def lockRun : Nat → List LockEv → Option Nat
| n, [] => some n
| n, .acq :: t => lockRun (n + 1) t
| 0, .rel :: _ => none
| n + 1, .rel :: t => lockRun n t

/-- A trace is well paired when every release follows a matching successful
acquisition and every successful acquisition is eventually released. -/
def wellPaired (t : List LockEv) : Bool := lockRun 0 t == some 0

/-- Lookup in an association list keyed by naturals (models std::map find). -/
def lookupKey {α : Type} : List (Nat × α) → Nat → Option α
| [], _ => none
| (k, v) :: rest, key => if key = k then some v else lookupKey rest key

/-- Remove every binding of a key (models std::map erase; bindings are
unique in every state the embedding builds). -/
def eraseKey {α : Type} : List (Nat × α) → Nat → List (Nat × α)
| [], _ => []
| (k2, v) :: rest, k => if k2 = k then eraseKey rest k else (k2, v) :: eraseKey rest k

/-- Insert or assign (models assignment through std::map operator[]:
replaces any existing binding for the key). -/
def setKey {α : Type} (l : List (Nat × α)) (k : Nat) (v : α) : List (Nat × α) :=
  (k, v) :: eraseKey l k

/-- An attribute path: endpoint, cluster and attribute id.  The source
stores them as uint16/uint32; ids here are naturals and every arithmetic
step that truncates in C is made explicit where it occurs. -/
structure AttrPath where
  endpointId : Nat
  clusterId : Nat
  attributeId : Nat
deriving DecidableEq, Repr

/-- A TLV element as classified by the switch in
http_attribute_data_callback.  floatBits keeps the raw bit pattern of the
double (the callback only copies the value, it never computes with it);
getFailed stands for an element whose typed Get call returned an error, in
which case the source adds no value field to the JSON object; other covers
every remaining TLV type. -/
inductive Tlv where
| boolean (b : Bool)
| uint (v : Nat)
| sint (v : Int)
| utf8 (s : String)
| floatBits (bits : Nat)
| getFailed
| other
deriving DecidableEq, Repr

/-- The value and type pair the callback writes into the JSON object. -/
inductive ValueField where
| boolean (b : Bool)
| uint (v : Nat)
| sint (v : Int)
| str (s : String)
| floatBits (bits : Nat)
| raw
| nullVal
| missing
deriving DecidableEq, Repr

/-- Mirrors the TLV switch of http_attribute_data_callback, including the
null-data branch and the truncation of strings to 255 bytes. -/
def decodeTlv : Option Tlv → ValueField
| none => .nullVal
| some (.boolean b) => .boolean b
| some (.uint v) => .uint v
| some (.sint v) => .sint v
| some (.utf8 s) => .str (s.take 255)
| some (.floatBits bits) => .floatBits bits
| some .getFailed => .missing
| some .other => .raw

/-- One element of the attribute_data JSON array built by
http_attribute_data_callback. -/
structure AttrItem where
  nodeId : Nat
  endpointId : Nat
  clusterId : Nat
  attributeId : Nat
  value : ValueField
deriving DecidableEq, Repr

/-- The JSON object the attribute-data callback appends for one report. -/
def mkAttrItem (nodeId : Nat) (path : AttrPath) (data : Option Tlv) : AttrItem :=
  { nodeId := nodeId, endpointId := path.endpointId, clusterId := path.clusterId,
    attributeId := path.attributeId, value := decodeTlv data }

/-- ReadAttributeResult: the per-operation record.  semGiven models the
state of the binary completion semaphore (false right after
xSemaphoreCreateBinary, true once given). -/
structure ReadRecord where
  semGiven : Bool
  attribute_data : List AttrItem
  success : Bool
  error_message : String
  expected_responses : Nat
  received_responses : Nat
deriving DecidableEq, Repr

/-- The ReadAttributeResult constructor. -/
def newReadRecord (expected : Nat) : ReadRecord :=
  { semGiven := false, attribute_data := [], success := false,
    error_message := "", expected_responses := expected, received_responses := 0 }

/-- Read-side global state: s_read_results maps a node id to the heap
address of its ReadAttributeResult; readHeap holds the live allocations;
nextPtr is the next fresh address. -/
structure RState where
  s_read_results : List (Nat × Nat)
  readHeap : List (Nat × ReadRecord)
  nextPtr : Nat
deriving DecidableEq, Repr

/-- The state before any operation ran. -/
def emptyRState : RState := { s_read_results := [], readHeap := [], nextPtr := 0 }

/-- http_attribute_data_callback.  mutexInit models the null check on
s_read_results_mutex and takeOk the bounded take on it; either failing
makes the callback return without touching anything.  An unregistered node
id is a silent no-op.  When the map still holds an address that is no
longer live in the heap the source would dereference freed memory; the
model leaves the state unchanged on that branch. -/
def http_attribute_data_callback (st : RState) (node_id : Nat) (path : AttrPath)
    (data : Option Tlv) (mutexInit takeOk : Bool) : RState :=
  if !mutexInit then st
  else if !takeOk then st
  else
    match lookupKey st.s_read_results node_id with
    | none => st
    | some ptr =>
      match lookupKey st.readHeap ptr with
      | none => st
      | some r =>
        let r2 := { r with
                    attribute_data := r.attribute_data ++ [mkAttrItem node_id path data],
                    received_responses := r.received_responses + 1,
                    success := true }
        { st with readHeap := setKey st.readHeap ptr r2 }

/-- http_read_done_callback: gives the completion semaphore of the record
registered for the node id, and is a silent no-op otherwise. -/
def http_read_done_callback (st : RState) (node_id : Nat)
    (mutexInit takeOk : Bool) : RState :=
  if !mutexInit then st
  else if !takeOk then st
  else
    match lookupKey st.s_read_results node_id with
    | none => st
    | some ptr =>
      match lookupKey st.readHeap ptr with
      | none => st
      | some r =>
        let r2 := { r with semGiven := true }
        { st with readHeap := setKey st.readHeap ptr r2 }

/-- A callback invocation delivered by the Matter task during one handler
run, carrying the outcome of the bounded mutex take inside the callback. -/
inductive CbEvent where
| attrData (node_id : Nat) (path : AttrPath) (data : Option Tlv) (takeOk : Bool)
| readDone (node_id : Nat) (takeOk : Bool)

/-- Dispatches one delivered event to the matching callback; the results
mutex exists by the time a read handler runs. -/
def applyCbEvent (st : RState) : CbEvent → RState
| .attrData n p d takeOk => http_attribute_data_callback st n p d true takeOk
| .readDone n takeOk => http_read_done_callback st n true takeOk

/-- Applies the delivered events in arrival order. -/
def processEvents (st : RState) (evts : List CbEvent) : RState :=
  evts.foldl applyCbEvent st

/-- Environment of send_read_attr_command_with_callbacks: outcomes of the
attribute-path allocation, the read_command allocation and of
send_command. -/
structure DispatchEnv where
  allocPathsOk : Bool
  allocCmdOk : Bool
  sendResult : EspErr
deriving DecidableEq, Repr

/-- Result of the dispatch step together with whether send_command was
reached (whether a read command was issued to the stack). -/
structure DispatchOut where
  result : EspErr
  issued : Bool
deriving DecidableEq, Repr

/-- send_read_attr_command_with_callbacks: rejects mismatched array
lengths with ESP_ERR_INVALID_ARG before building any attribute path,
reports ESP_ERR_NO_MEM on either allocation failure, and otherwise issues
the read command and returns its send result. -/
def send_read_attr_command_with_callbacks (endpoint_ids cluster_ids attribute_ids : List Nat)
    (env : DispatchEnv) : DispatchOut :=
  if endpoint_ids.length ≠ cluster_ids.length ∨ endpoint_ids.length ≠ attribute_ids.length then
    { result := .invalidArg, issued := false }
  else if !env.allocPathsOk then { result := .noMem, issued := false }
  else if !env.allocCmdOk then { result := .noMem, issued := false }
  else { result := env.sendResult, issued := true }

/-- Minimal cJSON value model covering what the embedded handlers
inspect. -/
inductive CJson where
| number (valueint : Int)
| str (s : String)
| boolean (b : Bool)
| array (items : List CJson)
| null

/-- json_array_to_uint16_array: rejects a non-array or an empty array with
ESP_ERR_INVALID_ARG, models Calloc failure with ESP_ERR_NO_MEM, rejects
any non-number element, and truncates each valueint to uint16 exactly as
the C cast does. -/
def json_array_to_uint16_array (j : CJson) (callocOk : Bool) : Except EspErr (List Nat) :=
  match j with
  | .array items =>
    if items.length = 0 then .error .invalidArg
    else if !callocOk then .error .noMem
    else items.mapM fun it =>
      match it with
      | .number i => Except.ok ((i % 65536).toNat)
      | _ => Except.error EspErr.invalidArg
  | _ => .error .invalidArg

/-- json_array_to_uint32_array: same shape with a uint32 truncation. -/
def json_array_to_uint32_array (j : CJson) (callocOk : Bool) : Except EspErr (List Nat) :=
  match j with
  | .array items =>
    if items.length = 0 then .error .invalidArg
    else if !callocOk then .error .noMem
    else items.mapM fun it =>
      match it with
      | .number i => Except.ok ((i % 4294967296).toNat)
      | _ => Except.error EspErr.invalidArg
  | _ => .error .invalidArg

/-- Environment for one run of read_attribute_handler: outcomes of every
bounded wait and allocation the handler performs, the dispatch
environment, and the callback events the Matter task delivers before the
10 second completion wait expires. -/
structure ReadEnv where
  callocEp : Bool
  callocCl : Bool
  callocAttr : Bool
  regTakeOk : Bool
  lockOk : Bool
  busyEraseTakeOk : Bool
  dispatch : DispatchEnv
  respAllocOk : Bool
  noRespEraseTakeOk : Bool
  events : List CbEvent
  cleanupTakeOk : Bool

/-- The terminal HTTP responses of read_attribute_handler together with
the data each carries.  The timeout response carries only status and
message strings and no attribute items, exactly as the source builds it. -/
inductive ReadResp where
| badRequest
| mutexTimeoutErr
| stackBusyErr
| respAllocErr
| success (attributes : List AttrItem)
| timeoutResp
| sendFailed
deriving DecidableEq, Repr

/-- The HTTP status code each response is sent with. -/
def ReadResp.statusCode : ReadResp → Nat
| .badRequest => 400
| .mutexTimeoutErr => 500
| .stackBusyErr => 503
| .respAllocErr => 500
| .success _ => 200
| .timeoutResp => 408
| .sendFailed => 500

/-- The attribute items a response carries back to the HTTP client. -/
def ReadResp.items : ReadResp → List AttrItem
| .success attrs => attrs
| _ => []

/-- Everything observable about one read handler run: the response, the
final global state, how many times the record was deleted, the trace of
events on the Matter stack lock, and whether a read command was issued. -/
structure ReadOutcome where
  resp : ReadResp
  state : RState
  recordFreed : Nat
  lockEvents : List LockEv
  commandIssued : Bool

/-- Body of read_attribute_handler from record creation onward (source
lines 998 to 1077), for an already validated request.  The record is
allocated first; a failed 5 second take at registration deletes it and
answers 500; a failed stack-lock acquisition erases the map entry only if
its own 5 second take succeeds, deletes the record and answers 503;
otherwise the command is dispatched under the lock, which is released
right after; then the handler blocks on the completion semaphore and
answers from what the record holds; the final cleanup erases the map entry
only if its 1 second take succeeds, and deletes the record regardless. -/
def read_attribute_core (nodeId : Nat) (ep cl attr : List Nat) (st0 : RState)
    (env : ReadEnv) : ReadOutcome :=
  let expected := ep.length
  let ptr := st0.nextPtr
  let st1 : RState :=
    { st0 with readHeap := setKey st0.readHeap ptr (newReadRecord expected),
               nextPtr := st0.nextPtr + 1 }
  if !env.regTakeOk then
    { resp := .mutexTimeoutErr,
      state := { st1 with readHeap := eraseKey st1.readHeap ptr },
      recordFreed := 1, lockEvents := [], commandIssued := false }
  else
    let st2 : RState := { st1 with s_read_results := setKey st1.s_read_results nodeId ptr }
    if !env.lockOk then
      let st3 :=
        if env.busyEraseTakeOk then
          { st2 with s_read_results := eraseKey st2.s_read_results nodeId }
        else st2
      { resp := .stackBusyErr,
        state := { st3 with readHeap := eraseKey st3.readHeap ptr },
        recordFreed := 1, lockEvents := [], commandIssued := false }
    else
      let d := send_read_attr_command_with_callbacks ep cl attr env.dispatch
      if !env.respAllocOk then
        let st3 :=
          if env.noRespEraseTakeOk then
            { st2 with s_read_results := eraseKey st2.s_read_results nodeId }
          else st2
        { resp := .respAllocErr,
          state := { st3 with readHeap := eraseKey st3.readHeap ptr },
          recordFreed := 1, lockEvents := [.acq, .rel], commandIssued := d.issued }
      else if d.result = .ok then
        let st3 := processEvents st2 env.events
        let r := (lookupKey st3.readHeap ptr).getD (newReadRecord expected)
        let resp := if r.semGiven then ReadResp.success r.attribute_data else ReadResp.timeoutResp
        let st4 :=
          if env.cleanupTakeOk then
            { st3 with s_read_results := eraseKey st3.s_read_results nodeId }
          else st3
        { resp := resp,
          state := { st4 with readHeap := eraseKey st4.readHeap ptr },
          recordFreed := 1, lockEvents := [.acq, .rel], commandIssued := d.issued }
      else
        let st3 :=
          if env.cleanupTakeOk then
            { st2 with s_read_results := eraseKey st2.s_read_results nodeId }
          else st2
        { resp := .sendFailed,
          state := { st3 with readHeap := eraseKey st3.readHeap ptr },
          recordFreed := 1, lockEvents := [.acq, .rel], commandIssued := d.issued }

/-- read_attribute_handler after JSON body parsing: the three array
conversions run first and any failure is answered with 400 before
anything is registered or locked; then the core runs. -/
def read_attribute_handler (nodeId : Nat) (endpoint_ids cluster_ids attribute_ids : CJson)
    (st0 : RState) (env : ReadEnv) : ReadOutcome :=
  match json_array_to_uint16_array endpoint_ids env.callocEp with
  | .error _ =>
    { resp := .badRequest, state := st0, recordFreed := 0, lockEvents := [], commandIssued := false }
  | .ok ep =>
    match json_array_to_uint32_array cluster_ids env.callocCl with
    | .error _ =>
      { resp := .badRequest, state := st0, recordFreed := 0, lockEvents := [], commandIssued := false }
    | .ok cl =>
      match json_array_to_uint32_array attribute_ids env.callocAttr with
      | .error _ =>
        { resp := .badRequest, state := st0, recordFreed := 0, lockEvents := [], commandIssued := false }
      | .ok attr => read_attribute_core nodeId ep cl attr st0 env

/-- One element of the write_results JSON array built by
http_write_response_callback: only the four ids, no value and no status
field. -/
structure WriteItem where
  nodeId : Nat
  endpointId : Nat
  clusterId : Nat
  attributeId : Nat
deriving DecidableEq, Repr

/-- The JSON object the write-response callback appends for one path. -/
def mkWriteItem (nodeId : Nat) (path : AttrPath) : WriteItem :=
  { nodeId := nodeId, endpointId := path.endpointId, clusterId := path.clusterId,
    attributeId := path.attributeId }

/-- WriteAttributeResult: the per-operation record of the write path. -/
structure WriteRecord where
  semGiven : Bool
  write_results : List WriteItem
  success : Bool
  error_message : String
  expected_responses : Nat
  received_responses : Nat
deriving DecidableEq, Repr

/-- The WriteAttributeResult constructor. -/
def newWriteRecord (expected : Nat) : WriteRecord :=
  { semGiven := false, write_results := [], success := false,
    error_message := "", expected_responses := expected, received_responses := 0 }

/-- Write-side global state: s_write_results maps a node id to the heap
address of its WriteAttributeResult. -/
structure WState where
  s_write_results : List (Nat × Nat)
  writeHeap : List (Nat × WriteRecord)
  nextPtr : Nat
deriving DecidableEq, Repr

/-- The write-side state before any operation ran. -/
def emptyWState : WState := { s_write_results := [], writeHeap := [], nextPtr := 0 }

/-- The per-record effect of one http_write_response_callback hit: append
the item, bump the received count, and flag success once the received
count reaches the expected count.  The status argument is accepted and
ignored, as in the source. -/
def writeRecStep (node_id : Nat) (r : WriteRecord) (path : AttrPath) : WriteRecord :=
  let r1 := { r with
              write_results := r.write_results ++ [mkWriteItem node_id path],
              received_responses := r.received_responses + 1 }
  if r1.received_responses ≥ r1.expected_responses then { r1 with success := true } else r1

/-- http_write_response_callback: a silent no-op when the results mutex is
missing, its bounded take fails, or the node id is unregistered; otherwise
it updates the registered record.  The stale-address branch mirrors the
read side. -/
def http_write_response_callback (st : WState) (node_id : Nat) (path : AttrPath)
    (status : Nat) (mutexInit takeOk : Bool) : WState :=
  if !mutexInit then st
  else if !takeOk then st
  else
    match lookupKey st.s_write_results node_id with
    | none => st
    | some ptr =>
      match lookupKey st.writeHeap ptr with
      | none => st
      | some r =>
        { st with writeHeap := setKey st.writeHeap ptr (writeRecStep node_id r path) }

/-- http_write_done_callback: gives the completion semaphore of the record
registered for the node id, and is a silent no-op otherwise. -/
def http_write_done_callback (st : WState) (node_id : Nat)
    (mutexInit takeOk : Bool) : WState :=
  if !mutexInit then st
  else if !takeOk then st
  else
    match lookupKey st.s_write_results node_id with
    | none => st
    | some ptr =>
      match lookupKey st.writeHeap ptr with
      | none => st
      | some r =>
        let r2 := { r with semGiven := true }
        { st with writeHeap := setKey st.writeHeap ptr r2 }

/-- Environment for one run of write_attribute_handler. -/
structure WriteEnv where
  callocEp : Bool
  callocCl : Bool
  callocAttr : Bool
  regTakeOk : Bool
  lockOk : Bool
  busyEraseTakeOk : Bool
  underlyingResult : EspErr
  cbTakeOk : Bool
  donePathsAllocOk : Bool
  respAllocOk : Bool
  noRespEraseTakeOk : Bool
  cleanupTakeOk : Bool

/-- The path list the simulated-callback loop walks: index i below the
endpoint count reads endpoint_ids i, cluster_ids i and attribute_ids i.
When the cluster or attribute array is shorter the source indexes out of
bounds (undefined behaviour); the model reads 0 there. -/
def zipPaths (ep cl attr : List Nat) : List AttrPath :=
  (List.range ep.length).map fun i =>
    { endpointId := ep.getD i 0, clusterId := cl.getD i 0, attributeId := attr.getD i 0 }

/-- send_write_attr_command_with_callbacks: forwards to the external
send_write_attr_command and, when that is accepted, waits a fixed 100 ms
delay and then manufactures one successful write-response callback per
requested path in request order, followed by one write-done callback if
the path buffer allocation succeeds.  No acknowledgment from the device is
consulted anywhere on this path. -/
def send_write_attr_command_with_callbacks (node_id : Nat) (ep cl attr : List Nat)
    (st : WState) (env : WriteEnv) : EspErr × WState :=
  if env.underlyingResult = .ok then
    let st1 := (zipPaths ep cl attr).foldl
      (fun s p => http_write_response_callback s node_id p 0 true env.cbTakeOk) st
    let st2 :=
      if env.donePathsAllocOk then http_write_done_callback st1 node_id true env.cbTakeOk
      else st1
    (.ok, st2)
  else (env.underlyingResult, st)

/-- The terminal HTTP responses of write_attribute_handler. -/
inductive WriteResp where
| badRequest
| mutexTimeoutErr
| stackBusyErr
| respAllocErr
| success (write_results : List WriteItem)
| timeoutResp
| sendFailed
deriving DecidableEq, Repr

/-- Everything observable about one write handler run. -/
structure WriteOutcome where
  resp : WriteResp
  state : WState
  recordFreed : Nat
  lockEvents : List LockEv
  commandIssued : Bool

/-- The write-side registration step: the freshly allocated record is
stored on the heap and the node id bound to its address through the map
assignment s_write_results nodeId equals write_result. -/
def registerWrite (st0 : WState) (nodeId expected : Nat) : WState :=
  { s_write_results := setKey st0.s_write_results nodeId st0.nextPtr,
    writeHeap := setKey st0.writeHeap st0.nextPtr (newWriteRecord expected),
    nextPtr := st0.nextPtr + 1 }

/-- Body of write_attribute_handler from record creation onward (source
lines 1127 to 1211), for an already validated request.  Mirrors the read
core, except that the completion callbacks are the simulated ones fired
synchronously inside send_write_attr_command_with_callbacks while the
stack lock is held. -/
def write_attribute_core (nodeId : Nat) (ep cl attr : List Nat) (st0 : WState)
    (env : WriteEnv) : WriteOutcome :=
  let expected := ep.length
  let ptr := st0.nextPtr
  let st1 : WState :=
    { st0 with writeHeap := setKey st0.writeHeap ptr (newWriteRecord expected),
               nextPtr := st0.nextPtr + 1 }
  if !env.regTakeOk then
    { resp := .mutexTimeoutErr,
      state := { st1 with writeHeap := eraseKey st1.writeHeap ptr },
      recordFreed := 1, lockEvents := [], commandIssued := false }
  else
    let st2 : WState := registerWrite st0 nodeId expected
    if !env.lockOk then
      let st3 :=
        if env.busyEraseTakeOk then
          { st2 with s_write_results := eraseKey st2.s_write_results nodeId }
        else st2
      { resp := .stackBusyErr,
        state := { st3 with writeHeap := eraseKey st3.writeHeap ptr },
        recordFreed := 1, lockEvents := [], commandIssued := false }
    else
      let sent := send_write_attr_command_with_callbacks nodeId ep cl attr st2 env
      let d := sent.1
      let stc := sent.2
      if !env.respAllocOk then
        let st3 :=
          if env.noRespEraseTakeOk then
            { stc with s_write_results := eraseKey stc.s_write_results nodeId }
          else stc
        { resp := .respAllocErr,
          state := { st3 with writeHeap := eraseKey st3.writeHeap ptr },
          recordFreed := 1, lockEvents := [.acq, .rel], commandIssued := true }
      else if d = .ok then
        let r := (lookupKey stc.writeHeap ptr).getD (newWriteRecord expected)
        let resp := if r.semGiven then WriteResp.success r.write_results else WriteResp.timeoutResp
        let st4 :=
          if env.cleanupTakeOk then
            { stc with s_write_results := eraseKey stc.s_write_results nodeId }
          else stc
        { resp := resp,
          state := { st4 with writeHeap := eraseKey st4.writeHeap ptr },
          recordFreed := 1, lockEvents := [.acq, .rel], commandIssued := true }
      else
        let st3 :=
          if env.cleanupTakeOk then
            { stc with s_write_results := eraseKey stc.s_write_results nodeId }
          else stc
        { resp := .sendFailed,
          state := { st3 with writeHeap := eraseKey st3.writeHeap ptr },
          recordFreed := 1, lockEvents := [.acq, .rel], commandIssued := true }

/-- write_attribute_handler after JSON body parsing: array conversions
first, any failure answered with 400 before registration; then the core.
The attribute_value string and the optional timed-write timeout are passed
through to the external command and do not influence the modelled flow. -/
def write_attribute_handler (nodeId : Nat) (endpoint_ids cluster_ids attribute_ids : CJson)
    (st0 : WState) (env : WriteEnv) : WriteOutcome :=
  match json_array_to_uint16_array endpoint_ids env.callocEp with
  | .error _ =>
    { resp := .badRequest, state := st0, recordFreed := 0, lockEvents := [], commandIssued := false }
  | .ok ep =>
    match json_array_to_uint32_array cluster_ids env.callocCl with
    | .error _ =>
      { resp := .badRequest, state := st0, recordFreed := 0, lockEvents := [], commandIssued := false }
    | .ok cl =>
      match json_array_to_uint32_array attribute_ids env.callocAttr with
      | .error _ =>
        { resp := .badRequest, state := st0, recordFreed := 0, lockEvents := [], commandIssued := false }
      | .ok attr => write_attribute_core nodeId ep cl attr st0 env

/-- The pairing methods dispatched by pairing_handler. -/
inductive PairingMethod where
| onnetwork
| bleWifi
| bleThread
| codeMethod
| other
deriving DecidableEq

/-- Stack-lock trace of pairing_handler.  Each method validates its
parameters before the lock; the ble-thread method also checks the dataset
string and its hex decoding; a failed acquisition returns with no event;
a held lock is released right after the pairing call on every path.  The
bleAvailable flag models CONFIG_ENABLE_ESP32_CONTROLLER_BLE_SCAN, whose
absence turns the ble-wifi branch into an early 400 return. -/
def pairing_handler_locks (m : PairingMethod) (bleAvailable paramsOk datasetOk hexOk lockOk : Bool) :
    List LockEv :=
  match m with
  | .onnetwork => if !paramsOk then [] else if !lockOk then [] else [.acq, .rel]
  | .bleWifi =>
    if !bleAvailable then []
    else if !paramsOk then [] else if !lockOk then [] else [.acq, .rel]
  | .bleThread =>
    if !paramsOk then [] else if !datasetOk then [] else if !hexOk then []
    else if !lockOk then [] else [.acq, .rel]
  | .codeMethod => if !paramsOk then [] else if !lockOk then [] else [.acq, .rel]
  | .other => []

/-- Stack-lock trace of open_commissioning_window_handler. -/
def open_commissioning_window_locks (paramsOk lockOk : Bool) : List LockEv :=
  if !paramsOk then [] else if !lockOk then [] else [.acq, .rel]

/-- Stack-lock trace of invoke_command_handler. -/
def invoke_command_locks (paramsOk lockOk : Bool) : List LockEv :=
  if !paramsOk then [] else if !lockOk then [] else [.acq, .rel]

/-- Stack-lock trace of read_event_handler: parameter check, three array
conversions, then lock, command, unlock. -/
def read_event_locks (paramsOk conv1 conv2 conv3 lockOk : Bool) : List LockEv :=
  if !paramsOk then [] else if !conv1 then [] else if !conv2 then [] else if !conv3 then []
  else if !lockOk then [] else [.acq, .rel]

/-- Stack-lock trace of subscribe_attribute_handler; the response
allocation check happens after the unlock and cannot affect the trace. -/
def subscribe_attribute_locks (paramsOk conv1 conv2 conv3 lockOk : Bool) : List LockEv :=
  if !paramsOk then [] else if !conv1 then [] else if !conv2 then [] else if !conv3 then []
  else if !lockOk then [] else [.acq, .rel]

/-- Stack-lock trace of subscribe_event_handler. -/
def subscribe_event_locks (paramsOk conv1 conv2 conv3 lockOk : Bool) : List LockEv :=
  if !paramsOk then [] else if !conv1 then [] else if !conv2 then [] else if !conv3 then []
  else if !lockOk then [] else [.acq, .rel]

/-- Stack-lock trace of shutdown_subscription_handler. -/
def shutdown_subscription_locks (paramsOk lockOk : Bool) : List LockEv :=
  if !paramsOk then [] else if !lockOk then [] else [.acq, .rel]

/-- Stack-lock trace of shutdown_all_subscriptions_handler: the lock is
taken before the optional node_id validation; an invalid node_id unlocks
and returns 400, otherwise the command runs and the lock is released. -/
def shutdown_all_subscriptions_locks (lockOk nodeIdPresent nodeIdIsNumber : Bool) : List LockEv :=
  if !lockOk then []
  else if nodeIdPresent && !nodeIdIsNumber then [.acq, .rel]
  else [.acq, .rel]

/-- Stack-lock trace of ble_scan_handler. -/
def ble_scan_locks (paramsOk timeoutInRange lockOk : Bool) : List LockEv :=
  if !paramsOk then [] else if !timeoutInRange then [] else if !lockOk then [] else [.acq, .rel]

/-- The actions dispatched by group_settings_handler. -/
inductive GroupAction where
| showGroups
| addGroup
| removeGroup
| other
deriving DecidableEq

/-- Stack-lock trace of group_settings_handler: the lock is taken after
the action string check; the add-group and remove-group branches unlock
and return 400 on bad parameters, the unknown-action branch unlocks and
returns 400, and every remaining path unlocks after the command. -/
def group_settings_locks (actionOk : Bool) (a : GroupAction) (paramsOk lockOk : Bool) :
    List LockEv :=
  if !actionOk then []
  else if !lockOk then []
  else
    match a with
    | .showGroups => [.acq, .rel]
    | .addGroup => if !paramsOk then [.acq, .rel] else [.acq, .rel]
    | .removeGroup => if !paramsOk then [.acq, .rel] else [.acq, .rel]
    | .other => [.acq, .rel]

/-- The actions dispatched by udc_handler. -/
inductive UdcAction where
| reset
| print
| commission
| other
deriving DecidableEq

/-- Stack-lock trace of udc_handler: same shape as group settings, with
the commission branch validating pincode and index under the lock. -/
def udc_locks (actionOk : Bool) (a : UdcAction) (paramsOk lockOk : Bool) : List LockEv :=
  if !actionOk then []
  else if !lockOk then []
  else
    match a with
    | .reset => [.acq, .rel]
    | .print => [.acq, .rel]
    | .commission => if !paramsOk then [.acq, .rel] else [.acq, .rel]
    | .other => [.acq, .rel]

/-- A dispatch environment in which both allocations succeed and
send_command accepts. -/
def benignDispatch : DispatchEnv :=
  { allocPathsOk := true, allocCmdOk := true, sendResult := .ok }

/-- A read environment in which every bounded wait and allocation
succeeds, with a chosen list of delivered callback events. -/
def readEnvWithEvents (evts : List CbEvent) : ReadEnv :=
  { callocEp := true, callocCl := true, callocAttr := true, regTakeOk := true,
    lockOk := true, busyEraseTakeOk := true, dispatch := benignDispatch,
    respAllocOk := true, noRespEraseTakeOk := true, events := evts, cleanupTakeOk := true }

/-- A write environment in which every bounded wait and allocation
succeeds and the external write command accepts. -/
def benignWriteEnv : WriteEnv :=
  { callocEp := true, callocCl := true, callocAttr := true, regTakeOk := true,
    lockOk := true, busyEraseTakeOk := true, underlyingResult := .ok,
    cbTakeOk := true, donePathsAllocOk := true, respAllocOk := true,
    noRespEraseTakeOk := true, cleanupTakeOk := true }

/-- The read-side state right after a one-path request for node 5 was
registered starting from the empty state: record at address 0. -/
def oneReadRegState : RState :=
  { s_read_results := [(5, 0)], readHeap := [(0, newReadRecord 1)], nextPtr := 1 }

/-- Benign read environment except that the 1 second mutex take in the
final cleanup block times out; the dispatcher delivers only the done
signal. -/
def readEnvNoCleanupTake : ReadEnv :=
  { callocEp := true, callocCl := true, callocAttr := true, regTakeOk := true,
    lockOk := true, busyEraseTakeOk := true, dispatch := benignDispatch,
    respAllocOk := true, noRespEraseTakeOk := true, events := [.readDone 5 true],
    cleanupTakeOk := false }

/-- Read environment in which the Matter stack lock acquisition times out
and the 5 second mutex take on that cleanup path times out as well. -/
def readEnvGateAndEraseFail : ReadEnv :=
  { callocEp := true, callocCl := true, callocAttr := true, regTakeOk := true,
    lockOk := false, busyEraseTakeOk := false, dispatch := benignDispatch,
    respAllocOk := true, noRespEraseTakeOk := true, events := [],
    cleanupTakeOk := true }

/-- A first in-flight read operation for node 5: one of two expected
reports has arrived and its waiter is still blocked on the semaphore. -/
def firstInFlightRecord : ReadRecord :=
  { semGiven := false, attribute_data := [], success := true, error_message := "",
    expected_responses := 2, received_responses := 1 }

/-- Global state while the first operation for node 5 is in flight, its
record living at address 7. -/
def stWithInFlight : RState :=
  { s_read_results := [(5, 7)], readHeap := [(7, firstInFlightRecord)], nextPtr := 8 }

/-- A second read request for node 5 issued while the first operation is
still in flight, in an otherwise benign environment. -/
def secondBeginRun : ReadOutcome :=
  read_attribute_handler 5 (CJson.array [.number 1]) (CJson.array [.number 6])
    (CJson.array [.number 8]) stWithInFlight (readEnvWithEvents [.readDone 5 true])

/-- A complete read run in which the final cleanup mutex take fails. -/
def cleanupTakeFailRun : ReadOutcome :=
  read_attribute_handler 5 (CJson.array [.number 1]) (CJson.array [.number 6])
    (CJson.array [.number 8]) emptyRState readEnvNoCleanupTake

/-- A complete read run in which the stack gate acquisition fails and the
erase on that path is skipped because its own mutex take fails. -/
def gateFailRun : ReadOutcome :=
  read_attribute_handler 5 (CJson.array [.number 1]) (CJson.array [.number 6])
    (CJson.array [.number 8]) emptyRState readEnvGateAndEraseFail

/-- A read run that accumulates one report and then times out: the
dispatcher delivers one attribute-data callback and never the done
callback. -/
def timeoutPartialRun : ReadOutcome :=
  read_attribute_handler 5 (CJson.array [.number 1]) (CJson.array [.number 6])
    (CJson.array [.number 8]) emptyRState
    (readEnvWithEvents [.attrData 5 ⟨1, 6, 8⟩ (some (.uint 1)) true])

/-- Lookup after erase: the erased key is gone, other keys unchanged. -/
theorem lookupKey_eraseKey {α : Type} (l : List (Nat × α)) (k k1 : Nat) :
    lookupKey (eraseKey l k) k1 = if k1 = k then none else lookupKey l k1 := by
  induction l with
  | nil => by_cases h : k1 = k <;> simp [eraseKey, lookupKey, h]
  | cons hd tl ih =>
    obtain ⟨k2, v⟩ := hd
    by_cases h2 : k2 = k <;> by_cases h1 : k1 = k2 <;>
      simp [eraseKey, lookupKey, h2, h1, ih] <;> simp_all

/-- Lookup after insert-or-assign: the written key maps to the new value,
other keys unchanged. -/
theorem lookupKey_setKey {α : Type} (l : List (Nat × α)) (k k1 : Nat) (v : α) :
    lookupKey (setKey l k v) k1 = if k1 = k then some v else lookupKey l k1 := by
  by_cases h : k1 = k <;> simp [setKey, lookupKey, h, lookupKey_eraseKey]

/-- The attribute-data callback leaves the state untouched when the node
id is not registered. -/
theorem attribute_data_cb_noop (st : RState) (n : Nat) (p : AttrPath) (d : Option Tlv)
    (mi t : Bool) (h : lookupKey st.s_read_results n = none) :
    http_attribute_data_callback st n p d mi t = st := by
  cases mi <;> cases t <;> simp [http_attribute_data_callback, h]

/-- The read-done callback leaves the state untouched when the node id is
not registered. -/
theorem read_done_cb_noop (st : RState) (n : Nat) (mi t : Bool)
    (h : lookupKey st.s_read_results n = none) :
    http_read_done_callback st n mi t = st := by
  cases mi <;> cases t <;> simp [http_read_done_callback, h]

/-- The write-response callback leaves the state untouched when the node
id is not registered. -/
theorem write_response_cb_noop (st : WState) (n : Nat) (p : AttrPath) (status : Nat)
    (mi t : Bool) (h : lookupKey st.s_write_results n = none) :
    http_write_response_callback st n p status mi t = st := by
  cases mi <;> cases t <;> simp [http_write_response_callback, h]

/-- The write-done callback leaves the state untouched when the node id is
not registered. -/
theorem write_done_cb_noop (st : WState) (n : Nat) (mi t : Bool)
    (h : lookupKey st.s_write_results n = none) :
    http_write_done_callback st n mi t = st := by
  cases mi <;> cases t <;> simp [http_write_done_callback, h]

/-- C3: every dispatcher callback (attribute data, read done, write
response, write done) invoked with a key that is not currently registered
returns without error and leaves the whole global state, hence also the
registry and every other operation, exactly unchanged. -/
theorem unregistered_callbacks_are_silent_noops (stR : RState) (stW : WState) (k : Nat)
    (p : AttrPath) (d : Option Tlv) (status : Nat) (mi1 t1 mi2 t2 mi3 t3 mi4 t4 : Bool)
    (hR : lookupKey stR.s_read_results k = none)
    (hW : lookupKey stW.s_write_results k = none) :
    http_attribute_data_callback stR k p d mi1 t1 = stR ∧
    http_read_done_callback stR k mi2 t2 = stR ∧
    http_write_response_callback stW k p status mi3 t3 = stW ∧
    http_write_done_callback stW k mi4 t4 = stW :=
  ⟨attribute_data_cb_noop stR k p d mi1 t1 hR,
   read_done_cb_noop stR k mi2 t2 hR,
   write_response_cb_noop stW k p status mi3 t3 hW,
   write_done_cb_noop stW k mi4 t4 hW⟩

/-- Witness for C3 at a concrete unregistered key. -/
theorem unregistered_callbacks_are_silent_noops_witness :
    http_attribute_data_callback emptyRState 1 ⟨1, 6, 0⟩ none true true = emptyRState ∧
    http_read_done_callback emptyRState 1 true true = emptyRState ∧
    http_write_response_callback emptyWState 1 ⟨1, 6, 0⟩ 0 true true = emptyWState ∧
    http_write_done_callback emptyWState 1 true true = emptyWState :=
  unregistered_callbacks_are_silent_noops emptyRState emptyWState 1 ⟨1, 6, 0⟩ none 0
    true true true true true true true true (by decide) (by decide)

/-- C10: whenever the three path arrays of a read request do not all have
the same length, send_read_attr_command_with_callbacks fails with
ESP_ERR_INVALID_ARG and no read command is issued to the stack. -/
theorem mismatched_read_arrays_rejected (ep cl attr : List Nat) (env : DispatchEnv)
    (h : ep.length ≠ cl.length ∨ ep.length ≠ attr.length) :
    send_read_attr_command_with_callbacks ep cl attr env =
      { result := .invalidArg, issued := false } := by
  simp [send_read_attr_command_with_callbacks, h]

/-- Witness for C10 at concrete mismatched arrays. -/
theorem mismatched_read_arrays_rejected_witness :
    send_read_attr_command_with_callbacks [1, 2] [3] [4, 5] benignDispatch =
      { result := .invalidArg, issued := false } :=
  mismatched_read_arrays_rejected [1, 2] [3] [4, 5] benignDispatch (by decide)

/-- C8 counterexample: a read request whose path arrays are all empty is
answered with the 400 bad-request response in an otherwise benign
environment: it is not accepted, nothing is registered, and no success
outcome with an empty result list is produced. -/
theorem empty_path_arrays_rejected_eval :
    (read_attribute_handler 5 (CJson.array []) (CJson.array []) (CJson.array [])
      emptyRState (readEnvWithEvents [.readDone 5 true])).resp = ReadResp.badRequest ∧
    (read_attribute_handler 5 (CJson.array []) (CJson.array []) (CJson.array [])
      emptyRState (readEnvWithEvents [.readDone 5 true])).state = emptyRState ∧
    (read_attribute_handler 5 (CJson.array []) (CJson.array []) (CJson.array [])
      emptyRState (readEnvWithEvents [.readDone 5 true])).recordFreed = 0 := by
  refine ⟨rfl, rfl, rfl⟩

/-- C8 amended: a read request whose endpoint array is empty is rejected
with a 400 bad-request response before any registration, for every state
and environment; the global state is untouched and no record is ever
created or freed. -/
theorem empty_path_arrays_always_rejected (nodeId : Nat) (cl attr : CJson) (st0 : RState)
    (env : ReadEnv) :
    (read_attribute_handler nodeId (CJson.array []) cl attr st0 env).resp = ReadResp.badRequest ∧
    (read_attribute_handler nodeId (CJson.array []) cl attr st0 env).state = st0 ∧
    (read_attribute_handler nodeId (CJson.array []) cl attr st0 env).recordFreed = 0 := by
  refine ⟨rfl, rfl, rfl⟩

/-- C7: when the dispatcher delivers three attribute reports and then the
done notification before the completion timeout, the read operation
answers success carrying exactly those three items in arrival order. -/
theorem read_results_in_arrival_order (p1 p2 p3 : AttrPath) (d1 d2 d3 : Option Tlv) :
    (read_attribute_handler 5 (CJson.array [.number 1, .number 1, .number 1])
      (CJson.array [.number 6, .number 6, .number 6])
      (CJson.array [.number 0, .number 1, .number 2]) emptyRState
      (readEnvWithEvents
        [.attrData 5 p1 d1 true, .attrData 5 p2 d2 true, .attrData 5 p3 d3 true,
         .readDone 5 true])).resp =
      ReadResp.success [mkAttrItem 5 p1 d1, mkAttrItem 5 p2 d2, mkAttrItem 5 p3 d3] := by
  rfl

/-- C4 counterexample: a read that accumulated one report and then timed
out answers the 408 timeout response, which carries no items at all, even
though the registered record held the accumulated report at harvest time. -/
theorem timeout_discards_partial_results_eval :
    timeoutPartialRun.resp = ReadResp.timeoutResp ∧
    ReadResp.items timeoutPartialRun.resp = [] ∧
    lookupKey (processEvents oneReadRegState
        [.attrData 5 ⟨1, 6, 8⟩ (some (.uint 1)) true]).readHeap 0 =
      some { semGiven := false,
             attribute_data := [mkAttrItem 5 ⟨1, 6, 8⟩ (some (.uint 1))],
             success := true, error_message := "", expected_responses := 1,
             received_responses := 1 } := by
  refine ⟨rfl, rfl, rfl⟩

/-- C1: a second Begin for node 5 issued while a first operation is still
in flight is silently accepted: the registration step replaces the map
entry, the second run completes with success, and afterwards the first
record is orphaned on the heap, never freed and never signalled, while the
registry no longer knows the key. -/
theorem second_begin_overwrites_eval :
    secondBeginRun.resp = ReadResp.success [] ∧
    lookupKey secondBeginRun.state.readHeap 7 = some firstInFlightRecord ∧
    lookupKey secondBeginRun.state.s_read_results 5 = none ∧
    firstInFlightRecord.semGiven = false := by
  refine ⟨rfl, rfl, rfl, rfl⟩

/-- C2: when the 1 second mutex take in the final cleanup block times out,
the handler still answers success and still frees its record exactly once,
but the registry keeps a binding for node 5 pointing at an address that is
no longer live: a dangling entry survives the return. -/
theorem cleanup_skip_leaves_dangling_entry_eval :
    cleanupTakeFailRun.resp = ReadResp.success [] ∧
    lookupKey cleanupTakeFailRun.state.s_read_results 5 = some 0 ∧
    lookupKey cleanupTakeFailRun.state.readHeap 0 = none ∧
    cleanupTakeFailRun.recordFreed = 1 := by
  refine ⟨rfl, rfl, rfl, rfl⟩

/-- C6: when the stack gate acquisition fails the handler answers the 503
busy response, never issues the stack call, and frees its record once; but
if the 5 second mutex take on that cleanup path also times out, the
just-created registry entry is not removed and survives as a dangling
binding. -/
theorem gate_failure_cleanup_eval :
    gateFailRun.resp = ReadResp.stackBusyErr ∧
    gateFailRun.commandIssued = false ∧
    gateFailRun.recordFreed = 1 ∧
    lookupKey gateFailRun.state.s_read_results 5 = some 0 ∧
    lookupKey gateFailRun.state.readHeap 0 = none := by
  refine ⟨rfl, rfl, rfl, rfl, rfl⟩

/-- C4 amended: whenever the completion semaphore has not been given by
the time the 10 second wait expires, the read operation answers the 408
timeout response, and that response carries no result items: accumulated
partial results are not returned to the caller. -/
theorem timeout_response_carries_no_items (evts : List CbEvent)
    (h : ((lookupKey (processEvents oneReadRegState evts).readHeap 0).getD
        (newReadRecord 1)).semGiven = false) :
    (read_attribute_handler 5 (CJson.array [.number 1]) (CJson.array [.number 6])
      (CJson.array [.number 8]) emptyRState (readEnvWithEvents evts)).resp =
      ReadResp.timeoutResp ∧
    ReadResp.items ReadResp.timeoutResp = [] := by
  constructor
  · have hcore :
        (read_attribute_handler 5 (CJson.array [.number 1]) (CJson.array [.number 6])
          (CJson.array [.number 8]) emptyRState (readEnvWithEvents evts)).resp =
          (if ((lookupKey (processEvents oneReadRegState evts).readHeap 0).getD
              (newReadRecord 1)).semGiven
           then ReadResp.success
             (((lookupKey (processEvents oneReadRegState evts).readHeap 0).getD
               (newReadRecord 1)).attribute_data)
           else ReadResp.timeoutResp) := rfl
    rw [hcore, h]
    simp
  · rfl

/-- Witness for the amended C4 with an empty event list. -/
theorem timeout_response_carries_no_items_witness :
    ((lookupKey (processEvents oneReadRegState []).readHeap 0).getD
        (newReadRecord 1)).semGiven = false ∧
    ((read_attribute_handler 5 (CJson.array [.number 1]) (CJson.array [.number 6])
      (CJson.array [.number 8]) emptyRState (readEnvWithEvents [])).resp =
      ReadResp.timeoutResp ∧
     ReadResp.items ReadResp.timeoutResp = []) :=
  ⟨by decide, timeout_response_carries_no_items [] (by decide)⟩

/-- One write-response hit appends exactly one item. -/
theorem writeRecStep_results (k : Nat) (r : WriteRecord) (p : AttrPath) :
    (writeRecStep k r p).write_results = r.write_results ++ [mkWriteItem k p] := by
  simp only [writeRecStep]
  split <;> rfl

/-- One write-response hit never touches the semaphore. -/
theorem writeRecStep_semGiven (k : Nat) (r : WriteRecord) (p : AttrPath) :
    (writeRecStep k r p).semGiven = r.semGiven := by
  simp only [writeRecStep]
  split <;> rfl

/-- Folding the per-record effect over a path list appends one item per
path in order and leaves the semaphore alone. -/
theorem writeRecFold (k : Nat) (ps : List AttrPath) (r : WriteRecord) :
    (ps.foldl (writeRecStep k) r).write_results = r.write_results ++ ps.map (mkWriteItem k) ∧
    (ps.foldl (writeRecStep k) r).semGiven = r.semGiven := by
  induction ps generalizing r with
  | nil => simp
  | cons p ps ih =>
    simp only [List.foldl_cons, List.map_cons]
    refine ⟨?_, ?_⟩
    · rw [(ih (writeRecStep k r p)).1, writeRecStep_results]
      simp
    · rw [(ih (writeRecStep k r p)).2, writeRecStep_semGiven]

/-- Folding the write-response callback over a path list, on a state in
which the key is registered and its record live, keeps the registry
unchanged and applies exactly the per-record fold to the record. -/
theorem write_cb_foldl (k : Nat) (ps : List AttrPath) (st : WState) (ptr : Nat)
    (r : WriteRecord)
    (hreg : lookupKey st.s_write_results k = some ptr)
    (hheap : lookupKey st.writeHeap ptr = some r) :
    ((ps.foldl (fun s p => http_write_response_callback s k p 0 true true) st).s_write_results
        = st.s_write_results) ∧
    (lookupKey
        (ps.foldl (fun s p => http_write_response_callback s k p 0 true true) st).writeHeap ptr
        = some (ps.foldl (writeRecStep k) r)) := by
  induction ps generalizing st r with
  | nil => exact ⟨rfl, hheap⟩
  | cons p ps ih =>
    have hcb : http_write_response_callback st k p 0 true true =
        { st with writeHeap := setKey st.writeHeap ptr (writeRecStep k r p) } := by
      simp [http_write_response_callback, hreg, hheap]
    simp only [List.foldl_cons, hcb]
    exact ih _ _ hreg (by simp [lookupKey_setKey])

/-- The write-done callback on a registered, live record gives its
semaphore and changes nothing else. -/
theorem write_done_cb_found (st : WState) (k ptr : Nat) (r : WriteRecord)
    (hreg : lookupKey st.s_write_results k = some ptr)
    (hheap : lookupKey st.writeHeap ptr = some r) :
    http_write_done_callback st k true true =
      { st with writeHeap := setKey st.writeHeap ptr ({ r with semGiven := true }) } := by
  simp [http_write_done_callback, hreg, hheap]

/-- C9: whenever the external write command is accepted (and the bounded
waits of the run succeed), the write operation answers success with a
result array fabricated locally from the request alone: exactly one entry
per requested attribute path, in request order, each carrying that path
ids, for every target state and with no device acknowledgment involved. -/
theorem write_success_fabricated_per_path (nodeId : Nat) (ep cl attr : List Nat)
    (st0 : WState) (env : WriteEnv)
    (hregTake : env.regTakeOk = true) (hlock : env.lockOk = true)
    (haccept : env.underlyingResult = .ok) (hcb : env.cbTakeOk = true)
    (hdonePaths : env.donePathsAllocOk = true) (hresp : env.respAllocOk = true) :
    (write_attribute_core nodeId ep cl attr st0 env).resp =
      WriteResp.success ((zipPaths ep cl attr).map (mkWriteItem nodeId)) := by
  have hreg2 : lookupKey (registerWrite st0 nodeId ep.length).s_write_results nodeId
      = some st0.nextPtr := by
    simp [registerWrite, lookupKey_setKey]
  have hheap2 : lookupKey (registerWrite st0 nodeId ep.length).writeHeap st0.nextPtr
      = some (newWriteRecord ep.length) := by
    simp [registerWrite, lookupKey_setKey]
  simp only [write_attribute_core, send_write_attr_command_with_callbacks,
    hregTake, hlock, haccept, hcb, hdonePaths, hresp, Bool.not_true, Bool.false_eq_true,
    if_false, if_true, reduceIte]
  obtain ⟨hfr, hfh⟩ := write_cb_foldl nodeId (zipPaths ep cl attr)
    (registerWrite st0 nodeId ep.length) st0.nextPtr (newWriteRecord ep.length) hreg2 hheap2
  rw [write_done_cb_found _ nodeId st0.nextPtr _ (by rw [hfr]; exact hreg2) hfh]
  simp only [lookupKey_setKey]
  have hres := (writeRecFold nodeId (zipPaths ep cl attr) (newWriteRecord ep.length)).1
  simpa using hres

/-- Witness for C9 at a concrete two-path write request. -/
theorem write_success_fabricated_per_path_witness :
    (write_attribute_core 5 [1, 2] [6, 6] [7, 8] emptyWState benignWriteEnv).resp =
      WriteResp.success ((zipPaths [1, 2] [6, 6] [7, 8]).map (mkWriteItem 5)) :=
  write_success_fabricated_per_path 5 [1, 2] [6, 6] [7, 8] emptyWState benignWriteEnv
    rfl rfl rfl rfl rfl rfl

/-- The read core produces a balanced stack-lock trace on every path. -/
theorem read_core_lock_trace (nodeId : Nat) (ep cl attr : List Nat) (st : RState)
    (env : ReadEnv) :
    wellPaired (read_attribute_core nodeId ep cl attr st env).lockEvents = true := by
  simp only [read_attribute_core]
  split
  · rfl
  · split
    · rfl
    · split
      · rfl
      · split
        · rfl
        · rfl

/-- The read handler produces a balanced stack-lock trace on every path. -/
theorem read_handler_lock_trace (nodeId : Nat) (epJ clJ attrJ : CJson) (st : RState)
    (env : ReadEnv) :
    wellPaired (read_attribute_handler nodeId epJ clJ attrJ st env).lockEvents = true := by
  simp only [read_attribute_handler]
  split
  · rfl
  · split
    · rfl
    · split
      · rfl
      · exact read_core_lock_trace _ _ _ _ _ _

/-- The write core produces a balanced stack-lock trace on every path. -/
theorem write_core_lock_trace (nodeId : Nat) (ep cl attr : List Nat) (st : WState)
    (env : WriteEnv) :
    wellPaired (write_attribute_core nodeId ep cl attr st env).lockEvents = true := by
  simp only [write_attribute_core]
  split
  · rfl
  · split
    · rfl
    · split
      · rfl
      · split
        · rfl
        · rfl

/-- The write handler produces a balanced stack-lock trace on every path. -/
theorem write_handler_lock_trace (nodeId : Nat) (epJ clJ attrJ : CJson) (st : WState)
    (env : WriteEnv) :
    wellPaired (write_attribute_handler nodeId epJ clJ attrJ st env).lockEvents = true := by
  simp only [write_attribute_handler]
  split
  · rfl
  · split
    · rfl
    · split
      · rfl
      · exact write_core_lock_trace _ _ _ _ _ _

/-- C5: on every code path of every embedded handler that touches the
Matter stack, each successful acquisition of the stack lock is matched by
exactly one release before the handler returns, and a release is never
produced without a prior matching successful acquisition. -/
theorem stack_lock_always_balanced :
    (∀ nodeId epJ clJ attrJ st env,
        wellPaired (read_attribute_handler nodeId epJ clJ attrJ st env).lockEvents = true) ∧
    (∀ nodeId epJ clJ attrJ st env,
        wellPaired (write_attribute_handler nodeId epJ clJ attrJ st env).lockEvents = true) ∧
    (∀ m bleAvailable pOk dOk hOk lOk,
        wellPaired (pairing_handler_locks m bleAvailable pOk dOk hOk lOk) = true) ∧
    (∀ pOk lOk, wellPaired (open_commissioning_window_locks pOk lOk) = true) ∧
    (∀ pOk lOk, wellPaired (invoke_command_locks pOk lOk) = true) ∧
    (∀ pOk c1 c2 c3 lOk, wellPaired (read_event_locks pOk c1 c2 c3 lOk) = true) ∧
    (∀ pOk c1 c2 c3 lOk, wellPaired (subscribe_attribute_locks pOk c1 c2 c3 lOk) = true) ∧
    (∀ pOk c1 c2 c3 lOk, wellPaired (subscribe_event_locks pOk c1 c2 c3 lOk) = true) ∧
    (∀ pOk lOk, wellPaired (shutdown_subscription_locks pOk lOk) = true) ∧
    (∀ lOk np nn, wellPaired (shutdown_all_subscriptions_locks lOk np nn) = true) ∧
    (∀ pOk tOk lOk, wellPaired (ble_scan_locks pOk tOk lOk) = true) ∧
    (∀ aOk a pOk lOk, wellPaired (group_settings_locks aOk a pOk lOk) = true) ∧
    (∀ aOk a pOk lOk, wellPaired (udc_locks aOk a pOk lOk) = true) := by
  refine ⟨read_handler_lock_trace, write_handler_lock_trace,
    ?_, ?_, ?_, ?_, ?_, ?_, ?_, ?_, ?_, ?_, ?_⟩
  · intro m bleAvailable pOk dOk hOk lOk
    cases m <;> revert bleAvailable pOk dOk hOk lOk <;> decide
  · decide
  · decide
  · decide
  · decide
  · decide
  · decide
  · decide
  · decide
  · intro aOk a pOk lOk
    cases a <;> revert aOk pOk lOk <;> decide
  · intro aOk a pOk lOk
    cases a <;> revert aOk pOk lOk <;> decide

/-- Supporting fact: every read run that reaches record creation frees the
record exactly once, on every exit path. -/
theorem read_core_frees_once (nodeId : Nat) (ep cl attr : List Nat) (st : RState)
    (env : ReadEnv) :
    (read_attribute_core nodeId ep cl attr st env).recordFreed = 1 := by
  simp only [read_attribute_core]
  split
  · rfl
  · split
    · rfl
    · split
      · rfl
      · split
        · rfl
        · rfl

/-- Supporting fact: every write run that reaches record creation frees
the record exactly once, on every exit path. -/
theorem write_core_frees_once (nodeId : Nat) (ep cl attr : List Nat) (st : WState)
    (env : WriteEnv) :
    (write_attribute_core nodeId ep cl attr st env).recordFreed = 1 := by
  simp only [write_attribute_core]
  split
  · rfl
  · split
    · rfl
    · split
      · rfl
      · split
        · rfl
        · rfl

/-- Supporting fact: whenever the bounded mutex takes guarding the erase
steps succeed, the read core leaves no registry binding for the key and no
live record at the allocated address, on every exit path. -/
theorem read_core_reclaims (nodeId : Nat) (ep cl attr : List Nat) (st0 : RState)
    (env : ReadEnv)
    (h0 : lookupKey st0.s_read_results nodeId = none)
    (h1 : env.busyEraseTakeOk = true) (h2 : env.noRespEraseTakeOk = true)
    (h3 : env.cleanupTakeOk = true) :
    lookupKey (read_attribute_core nodeId ep cl attr st0 env).state.s_read_results nodeId
      = none ∧
    lookupKey (read_attribute_core nodeId ep cl attr st0 env).state.readHeap st0.nextPtr
      = none := by
  simp only [read_attribute_core, h1, h2, h3, if_true, reduceIte]
  split
  · exact ⟨h0, by simp [lookupKey_eraseKey]⟩
  · split
    · exact ⟨by simp [lookupKey_eraseKey], by simp [lookupKey_eraseKey]⟩
    · split
      · exact ⟨by simp [lookupKey_eraseKey], by simp [lookupKey_eraseKey]⟩
      · split
        · exact ⟨by simp [lookupKey_eraseKey], by simp [lookupKey_eraseKey]⟩
        · exact ⟨by simp [lookupKey_eraseKey], by simp [lookupKey_eraseKey]⟩

/-- Witness for the reclamation fact at a concrete benign run. -/
theorem read_core_reclaims_witness :
    lookupKey (read_attribute_core 5 [1] [6] [8] emptyRState
      (readEnvWithEvents [.readDone 5 true])).state.s_read_results 5 = none ∧
    lookupKey (read_attribute_core 5 [1] [6] [8] emptyRState
      (readEnvWithEvents [.readDone 5 true])).state.readHeap emptyRState.nextPtr = none :=
  read_core_reclaims 5 [1] [6] [8] emptyRState (readEnvWithEvents [.readDone 5 true])
    (by decide) rfl rfl rfl

end MatterController
